import Mathlib

set_option maxRecDepth 100000

/-!
Shallow embedding of `jupter_printer.py`, a Jupyter notebook cell execution
monitor, together with proofs about its capture session, formatters and
execution hooks.

Modelling conventions:
  * Python strings are Lean `String`s; `str.strip()` is `pyStrip` (the ASCII
    whitespace characters, which cover every input appearing in the program);
    `str.split(chr(10))` is `pySplitNl`, splitting on the newline character
    exactly as Python does (no collapsing, `"" ↦ [""]`).
  * `time.time()` values are rationals; each call site of `time.time()`
    becomes an explicit parameter.
  * The process-wide `sys.stdout` / `sys.stderr` slots hold a `PyStream`:
    `pynone` (Python `None`), a real stream `handle`, or the capture object
    itself (`tee`).
  * The `threading.Lock` only serialises `start`/`stop`/`write`; the model is
    the sequential semantics of those critical sections.
-/

namespace JupyterPrinter

/-- Python ASCII whitespace: the characters removed by `str.strip()` for the
(ASCII) inputs this program handles: space, tab, newline, carriage return,
vertical tab, form feed. -/
def pySpace (c : Char) : Bool :=
  c = ' ' || c = '\t' || c = '\n' || c = '\r' || c = Char.ofNat 11 || c = Char.ofNat 12

/-- Python `s.strip()`: remove leading and trailing whitespace. -/
def pyStrip (s : String) : String :=
  String.mk (((s.toList.dropWhile pySpace).reverse.dropWhile pySpace).reverse)

/-- Auxiliary for `pySplitNl`: walk the characters, cutting at every newline;
`acc` holds the current field, reversed. -/
def pySplitNlAux : List Char → List Char → List String
  | [], acc => [String.mk acc.reverse]
  | c :: rest, acc =>
      if c = '\n' then String.mk acc.reverse :: pySplitNlAux rest []
      else pySplitNlAux rest (c :: acc)

/-- Python `s.split(chr(10))` / `s.split("\n")`: split on each newline,
keeping empty fields (so `"" ↦ [""]`, `"a\n" ↦ ["a", ""]`). -/
def pySplitNl (s : String) : List String :=
  pySplitNlAux s.toList []

/-- Little-endian decimal digits of a natural number, with explicit fuel so
that the recursion is structural (`fuel` starts at `n + 1`, always enough). -/
def natDecAux : Nat → Nat → List Char
  | 0, _ => []
  | fuel + 1, n =>
      if n < 10 then [Nat.digitChar n]
      else Nat.digitChar (n % 10) :: natDecAux fuel (n / 10)

/-- Decimal representation of a natural number, as produced by Python's
`str` / `d` format. -/
def natRepr (n : Nat) : String :=
  String.mk (natDecAux (n + 1) n).reverse

/-- Decimal representation of an integer, as produced by Python's `str`. -/
def intRepr (i : Int) : String :=
  if i < 0 then "-" ++ natRepr i.natAbs else natRepr i.natAbs

/-- Python's `f"{i:2d}"`: decimal, right-justified to width at least 2 with
spaces. -/
def formatInt2 (i : Nat) : String :=
  if (natRepr i).length < 2 then " " ++ natRepr i else natRepr i

/-- Left-pad with zeros to width 3 (for the fractional part of `.3f`). -/
def zeroPad3 (s : String) : String :=
  String.mk (List.replicate (3 - s.length) '0') ++ s

/-- Python's `f"{x:.3f}"` on a rational time value: three decimal places,
rounding to nearest (the binary-float rounding of CPython is approximated by
exact rational rounding; no claim depends on the tie behaviour). -/
def format3 (q : ℚ) : String :=
  let m : ℤ := round (q * 1000)
  let sign := if m < 0 then "-" else ""
  let a := m.natAbs
  sign ++ natRepr (a / 1000) ++ "." ++ zeroPad3 (natRepr (a % 1000))

/-- `'=' * 60`, the banner rule. -/
def eq60 : String := String.mk (List.replicate 60 '=')

namespace Colors

def BLUE : String := "\x1b[94m"

def GREEN : String := "\x1b[92m"

def YELLOW : String := "\x1b[93m"

def RED : String := "\x1b[91m"

def PURPLE : String := "\x1b[95m"

def BOLD : String := "\x1b[1m"

def END : String := "\x1b[0m"

end Colors

/-- A value held by the process-wide `sys.stdout` / `sys.stderr` slots or by
the capture object's saved-target fields: Python `None`, a real stream handle
(identified by a number), or the capture object itself. -/
inductive PyStream where
  | pynone : PyStream
  | handle : Nat → PyStream
  | tee : PyStream
deriving DecidableEq

/-- The mutable state of `CellOutputCapture` (fields in source order;
`self.lock` is modelled by the sequential semantics). -/
structure CaptureState where
  original_stdout : PyStream
  original_stderr : PyStream
  captured_output : List String
  is_capturing : Bool
deriving DecidableEq

/-- `CellOutputCapture.__init__`. -/
def CaptureState.init : CaptureState :=
  { original_stdout := PyStream.pynone
    original_stderr := PyStream.pynone
    captured_output := []
    is_capturing := false }

/-- The process-wide `sys.stdout` / `sys.stderr` pair. -/
structure SysStreams where
  stdout : PyStream
  stderr : PyStream
deriving DecidableEq

/-- `CellOutputCapture.start_capture`: under the lock, if not capturing,
snapshot `sys.stdout` / `sys.stderr`, clear the sink, install the tee as both
targets and mark capturing; otherwise do nothing. -/
def start_capture (sys : SysStreams) (c : CaptureState) : SysStreams × CaptureState :=
  if c.is_capturing = false then
    (⟨PyStream.tee, PyStream.tee⟩,
     { original_stdout := sys.stdout
       original_stderr := sys.stderr
       captured_output := []
       is_capturing := true })
  else (sys, c)

/-- `CellOutputCapture.stop_capture`: under the lock, if capturing, restore
the saved targets, mark not capturing and return `''.join(captured_output)`;
otherwise return `''`.  (Note: `captured_output` itself is not cleared.) -/
def stop_capture (sys : SysStreams) (c : CaptureState) : SysStreams × CaptureState × String :=
  if c.is_capturing = true then
    (⟨c.original_stdout, c.original_stderr⟩,
     { c with is_capturing := false },
     String.join c.captured_output)
  else (sys, c, "")

/-- `CellOutputCapture.write(text)`: if `text and text.strip()`, append `text`
to the sink and, when `original_stdout` is truthy (not `None`), forward the
colorized `[REALTIME]` copy to it (the forwarded event is returned as
`some (target, formatted text)`; `flush` on the target is implied by the
event).  Otherwise the chunk is dropped. -/
def write (c : CaptureState) (text : String) : CaptureState × Option (PyStream × String) :=
  if text ≠ "" ∧ pyStrip text ≠ "" then
    ({ c with captured_output := c.captured_output ++ [text] },
     if c.original_stdout ≠ PyStream.pynone then
       some (c.original_stdout, Colors.GREEN ++ "[REALTIME] " ++ text ++ Colors.END)
     else none)
  else (c, none)

/-- `CellOutputCapture.flush`: forward to the saved target when one exists. -/
def flush (c : CaptureState) : Option PyStream :=
  if c.original_stdout ≠ PyStream.pynone then some c.original_stdout else none

/-- A `start_capture`/`stop_capture` call, for reasoning about call
sequences. -/
inductive CapOp where
  | start : CapOp
  | stop : CapOp
deriving DecidableEq

/-- Run one capture call against the process streams and capture state
(the text returned by `stop` is discarded here). -/
def runOp (s : SysStreams × CaptureState) : CapOp → SysStreams × CaptureState
  | CapOp.start => start_capture s.1 s.2
  | CapOp.stop => ((stop_capture s.1 s.2).1, (stop_capture s.1 s.2).2.1)

/-- Run a sequence of capture calls from left to right. -/
def runOps (s : SysStreams × CaptureState) (ops : List CapOp) : SysStreams × CaptureState :=
  ops.foldl runOp s

/-- Run a sequence of `write` calls, discarding the forwarded events. -/
def writeAll (c : CaptureState) (ws : List String) : CaptureState :=
  ws.foldl (fun s w => (write s w).1) c

/-! ## Formatters -/

/-- The loop `for i, line in enumerate(lines, 1): print(f"{BLUE}[{i:2d}] {line}{END}")`
of `pre_run_print`; `i` is the index of the next line. -/
def numberLines : Nat → List String → List String
  | _, [] => []
  | i, line :: rest =>
      (Colors.BLUE ++ "[" ++ formatInt2 i ++ "] " ++ line ++ Colors.END)
        :: numberLines (i + 1) rest

/-- `pre_run_print(cell_content)`: the list of printed lines, one per `print`
call (each `print` call contributes its formatted string). -/
def pre_run_print (cell_content : String) : List String :=
  ["\n" ++ Colors.BLUE ++ Colors.BOLD ++ eq60,
   "ðŸš€ PRE-RUN: Cell Content",
   eq60 ++ Colors.END]
  ++ numberLines 1 (pySplitNl (pyStrip cell_content))
  ++ [Colors.BLUE ++ eq60,
      "â±ï¸  Execution starting...",
      eq60 ++ Colors.END ++ "\n"]

/-- The indexed body of `pre_run_print`'s output: everything between the
three header lines and the three footer lines. -/
def preRunIndexed (cell_content : String) : List String :=
  ((pre_run_print cell_content).drop 3).take ((pre_run_print cell_content).length - 6)

/-- `realtime_print(text)`: `timestamp` is the value of
`time.strftime("%H:%M:%S")` at the call.  Emits one line when
`text and text.strip()`, nothing otherwise. -/
def realtime_print (timestamp : String) (text : String) : List String :=
  if text ≠ "" ∧ pyStrip text ≠ "" then
    [Colors.GREEN ++ "[" ++ timestamp ++ "] " ++ pyStrip text ++ Colors.END]
  else []

/-- A Python value as far as `post_run_print` observes one: `None`, an
integer, a string or a boolean (enough to cover every behaviour the
formatter distinguishes: `is not None`, `str(...)` and `type(...).__name__`). -/
inductive PyValue where
  | pynone : PyValue
  | pyint : Int → PyValue
  | pystr : String → PyValue
  | pybool : Bool → PyValue
deriving DecidableEq

/-- Python `str(v)`. -/
def PyValue.str : PyValue → String
  | PyValue.pynone => "None"
  | PyValue.pyint n => intRepr n
  | PyValue.pystr s => s
  | PyValue.pybool b => if b then "True" else "False"

/-- Python `type(v).__name__`. -/
def PyValue.typeName : PyValue → String
  | PyValue.pynone => "NoneType"
  | PyValue.pyint _ => "int"
  | PyValue.pystr _ => "str"
  | PyValue.pybool _ => "bool"

/-- The truncation applied to `result_str`: `result_str[:200] + "..."` when
`len(result_str) > 200`, otherwise unchanged. -/
def pyTrunc (s : String) : String :=
  if s.length > 200 then s.take 200 ++ "..." else s

/-- The result section of `post_run_print`: for a non-`None` result a type
line, then a preview line only when the truncated string form is truthy after
`strip()`; for `None` the "No return value" line. -/
def resultLines (execution_result : PyValue) : List String :=
  if execution_result ≠ PyValue.pynone then
    (Colors.YELLOW ++ "ðŸ“Š Result type: "
        ++ execution_result.typeName ++ Colors.END)
      :: (if pyStrip (pyTrunc execution_result.str) ≠ "" then
            [Colors.YELLOW ++ "ðŸ“‹ Result preview: "
               ++ pyTrunc execution_result.str ++ Colors.END]
          else [])
  else [Colors.YELLOW ++ "ðŸ“Š No return value" ++ Colors.END]

/-- `post_run_print(execution_result, execution_time, cell_content)`: the
list of printed lines. -/
def post_run_print (execution_result : PyValue) (execution_time : ℚ)
    (cell_content : String) : List String :=
  ["\n" ++ Colors.YELLOW ++ Colors.BOLD ++ eq60,
   "âœ… POST-RUN: Execution Complete",
   eq60 ++ Colors.END,
   Colors.YELLOW ++ "â±ï¸  Execution time: "
     ++ format3 execution_time ++ " seconds" ++ Colors.END,
   Colors.YELLOW ++ "ðŸ“ Lines executed: "
     ++ natRepr (pySplitNl (pyStrip cell_content)).length ++ Colors.END]
  ++ resultLines execution_result
  ++ [Colors.YELLOW ++ eq60,
      "ðŸŽ‰ Cell execution completed successfully!",
      eq60 ++ Colors.END ++ "\n"]

/-! ## Hook controller (`CellExecutionHook`) -/

/-- A value stored in the IPython user namespace dict: a `time.time()` float
or an arbitrary object. -/
inductive NsVal where
  | time : ℚ → NsVal
  | obj : PyValue → NsVal
deriving DecidableEq

/-- The IPython `user_ns` dict, as an association list (first match wins). -/
def UserNs : Type := List (String × NsVal)

/-- Python dict assignment `ns[k] = v`: replace in place, or append. -/
def dictSet : UserNs → String → NsVal → UserNs
  | [], k, v => [(k, v)]
  | (k0, v0) :: rest, k, v =>
      if k0 = k then (k0, v) :: rest else (k0, v0) :: dictSet rest k v

/-- Python dict key lookup `ns.get(k)`. -/
def dictGet? : UserNs → String → Option NsVal
  | [], _ => none
  | (k0, v0) :: rest, k => if k0 = k then some v0 else dictGet? rest k

/-- `getattr(user_ns, name, default)` where `user_ns` is a Python dict:
attribute lookup on a dict instance does not consult the dict's keys, and
neither `"_cell_start_time"` nor `"_"` is an attribute of the `dict` type, so
for the names this program passes the call returns the default regardless of
the namespace contents. -/
def getattrUserNs {α : Type} (_ns : UserNs) (_name : String) (default : α) : α :=
  default

/-- The attributes of the IPython shell object the hooks touch: `user_ns`
(always present on a real shell, so `hasattr(self.ip, 'user_ns')` holds) and
`_current_cell_content` (absent until the input transformer first sets it). -/
structure IpState where
  user_ns : UserNs
  current_cell_content : Option String

/-- `getattr(self.ip, '_current_cell_content', 'No content available')`. -/
def currentCellContent (ip : IpState) : String :=
  ip.current_cell_content.getD "No content available"

/-- `CellExecutionHook.pre_execute`, with `active` the hook's `self.active`
flag and `now` the value of the `time.time()` call on its last line: print
the pre-run report, start the capture, and store the start time into
`user_ns` by dict assignment. -/
def pre_execute (active : Bool) (sys : SysStreams) (cap : CaptureState)
    (ip : IpState) (now : ℚ) : SysStreams × CaptureState × IpState × List String :=
  if active then
    ((start_capture sys cap).1, (start_capture sys cap).2,
     { ip with user_ns := dictSet ip.user_ns "_cell_start_time" (NsVal.time now) },
     pre_run_print (currentCellContent ip))
  else (sys, cap, ip, [])

/-- The `start_time` read of `post_execute`
(`getattr(self.ip.user_ns, '_cell_start_time', time.time())`) followed by
`execution_time = time.time() - start_time`; `tDefault` is the `time.time()`
evaluated as the getattr default, `tNow` the one in the subtraction. -/
def post_execute_elapsed (ip : IpState) (tDefault tNow : ℚ) : ℚ :=
  tNow - getattrUserNs ip.user_ns "_cell_start_time" tDefault

/-- The result read of `post_execute`: `getattr(self.ip.user_ns, '_', None)`. -/
def post_execute_result (ip : IpState) : PyValue :=
  getattrUserNs ip.user_ns "_" PyValue.pynone

/-- `CellExecutionHook.post_execute`: stop the capture (discarding the
returned text), compute the elapsed time and the result as above, and print
the post-run report. -/
def post_execute (active : Bool) (sys : SysStreams) (cap : CaptureState)
    (ip : IpState) (tDefault tNow : ℚ) : SysStreams × CaptureState × List String :=
  if active then
    ((stop_capture sys cap).1, (stop_capture sys cap).2.1,
     post_run_print (post_execute_result ip)
       (post_execute_elapsed ip tDefault tNow) (currentCellContent ip))
  else (sys, cap, [])

/-- The reading of the start time the specification assumes (simple key
lookup in the context mapping): elapsed time is `tNow` minus the stored
start timestamp, defined when one was stored. -/
def spec_elapsed (ip : IpState) (tNow : ℚ) : Option ℚ :=
  match dictGet? ip.user_ns "_cell_start_time" with
  | some (NsVal.time t0) => some (tNow - t0)
  | _ => none

/-- The result retrieval the specification assumes (simple key lookup of the
last-computed result under `"_"`). -/
def spec_result (ip : IpState) : PyValue :=
  match dictGet? ip.user_ns "_" with
  | some (NsVal.obj v) => v
  | _ => PyValue.pynone

/-! ## Lemmas about the capture session -/

theorem pyStrip_empty : pyStrip "" = "" := rfl

/-- `write`'s guard `text and text.strip()` is equivalent to the strip being
non-empty, so `write` either appends exactly the chunk (forwarding when a
target is saved) or does nothing at all. -/
theorem write_eq (c : CaptureState) (w : String) :
    write c w =
      if pyStrip w ≠ "" then
        ({ c with captured_output := c.captured_output ++ [w] },
         if c.original_stdout ≠ PyStream.pynone then
           some (c.original_stdout,
                 Colors.GREEN ++ "[REALTIME] " ++ w ++ Colors.END)
         else none)
      else (c, none) := by
  by_cases h : pyStrip w = ""
  · have hw : ¬(w ≠ "" ∧ pyStrip w ≠ "") := by
      intro hcon
      exact hcon.2 h
    simp [write, hw, h]
  · have hne : w ≠ "" := by
      intro hcon
      rw [hcon, pyStrip_empty] at h
      exact h rfl
    simp [write, hne, h]

/-- `writeAll` only grows the sink: it appends exactly the chunks whose strip
is non-empty, in arrival order, and leaves every other field unchanged. -/
theorem writeAll_eq (ws : List String) : ∀ c : CaptureState,
    writeAll c ws =
      { c with captured_output :=
          c.captured_output ++ ws.filter (fun w => pyStrip w ≠ "") } := by
  induction ws with
  | nil => intro c; simp [writeAll]
  | cons w ws ih =>
      intro c
      by_cases h : pyStrip w = ""
      · have hstep : (write c w).1 = c := by rw [write_eq]; simp [h]
        have : writeAll c (w :: ws) = writeAll c ws := by
          simp [writeAll, hstep]
        rw [this, ih c]
        simp [List.filter_cons, h]
      · have hstep : (write c w).1
            = { c with captured_output := c.captured_output ++ [w] } := by
          rw [write_eq]; simp [h]
        have : writeAll c (w :: ws)
            = writeAll { c with captured_output := c.captured_output ++ [w] } ws := by
          simp [writeAll, hstep]
        rw [this, ih]
        simp [List.filter_cons, h]

/-- After any single `start`/`stop` call, the capture flag is set exactly when
that call was a `start`. -/
theorem runOp_flag (s : SysStreams × CaptureState) (op : CapOp) :
    (runOp s op).2.is_capturing = decide (op = CapOp.start) := by
  cases op
  · cases h : s.2.is_capturing <;> simp [runOp, start_capture, h]
  · cases h : s.2.is_capturing <;> simp [runOp, stop_capture, h]

/-- After a non-empty call sequence, the capture flag is set exactly when the
last call was a `start`. -/
theorem runOps_flag (ops : List CapOp) : ∀ (s : SysStreams × CaptureState) (op : CapOp),
    (runOps s (op :: ops)).2.is_capturing
      = decide ((op :: ops).getLast? = some CapOp.start) := by
  induction ops with
  | nil =>
      intro s op
      have h := runOp_flag s op
      simp [runOps, List.foldl] at h ⊢
      cases op <;> simp_all
  | cons op2 rest ih =>
      intro s op
      have h := ih (runOp s op) op2
      have hrun : runOps s (op :: op2 :: rest) = runOps (runOp s op) (op2 :: rest) := by
        simp [runOps, List.foldl]
      rw [hrun, h]
      simp [List.getLast?]

/-! ## The claims -/

/-- C4: starting from the initial capture state, after any sequence of
`start_capture`/`stop_capture` calls the `is_capturing` flag is true iff the
most recent call in the sequence was a `start` (so it is false except strictly
between a `start` and its matching `stop`). -/
theorem claim_C4 (sys0 : SysStreams) (ops : List CapOp) :
    (runOps (sys0, CaptureState.init) ops).2.is_capturing = true
      ↔ ops.getLast? = some CapOp.start := by
  cases ops with
  | nil => simp [runOps, CaptureState.init]
  | cons op rest =>
      rw [runOps_flag rest (sys0, CaptureState.init) op]
      simp

/-- C5: `start_capture` on an already-active session changes nothing (no lost
snapshot, sink untouched); on an inactive session it snapshots the current
targets, clears the sink, installs the tee as both targets and marks the
session active. -/
theorem claim_C5 (sys : SysStreams) (c : CaptureState) :
    (c.is_capturing = true → start_capture sys c = (sys, c))
    ∧ (c.is_capturing = false →
        start_capture sys c =
          (⟨PyStream.tee, PyStream.tee⟩,
           { original_stdout := sys.stdout
             original_stderr := sys.stderr
             captured_output := []
             is_capturing := true })) := by
  constructor <;> intro h <;> simp [start_capture, h]

/-- Witness for C5 at concrete active and inactive states. -/
theorem claim_C5_witness :
    start_capture ⟨PyStream.handle 0, PyStream.handle 1⟩
        ⟨PyStream.handle 2, PyStream.handle 3, ["x"], true⟩
      = (⟨PyStream.handle 0, PyStream.handle 1⟩,
         ⟨PyStream.handle 2, PyStream.handle 3, ["x"], true⟩)
    ∧ start_capture ⟨PyStream.handle 0, PyStream.handle 1⟩ CaptureState.init
      = (⟨PyStream.tee, PyStream.tee⟩,
         ⟨PyStream.handle 0, PyStream.handle 1, [], true⟩) :=
  ⟨(claim_C5 ⟨PyStream.handle 0, PyStream.handle 1⟩
      ⟨PyStream.handle 2, PyStream.handle 3, ["x"], true⟩).1 rfl,
   (claim_C5 ⟨PyStream.handle 0, PyStream.handle 1⟩ CaptureState.init).2 rfl⟩

/-- C6: `stop_capture` on an inactive session returns empty text and performs
no state change at all (streams, flag, sink and saved handles untouched);
being a total function of the embedding, it raises nothing. -/
theorem claim_C6 (sys : SysStreams) (c : CaptureState)
    (h : c.is_capturing = false) :
    stop_capture sys c = (sys, c, "") := by
  simp [stop_capture, h]

/-- Witness for C6: stop without any preceding start. -/
theorem claim_C6_witness :
    stop_capture ⟨PyStream.handle 0, PyStream.handle 1⟩ CaptureState.init
      = (⟨PyStream.handle 0, PyStream.handle 1⟩, CaptureState.init, "") :=
  claim_C6 ⟨PyStream.handle 0, PyStream.handle 1⟩ CaptureState.init rfl

/-- C2 as stated is false: after `start` and `write "hello"`, `stop` returns
the accumulated text but leaves the sink slot holding `["hello"]` — the sink
is not cleared as part of the `stop` call. -/
theorem claim_C2_counterexample :
    (stop_capture
        (start_capture ⟨PyStream.handle 0, PyStream.handle 1⟩ CaptureState.init).1
        (write (start_capture ⟨PyStream.handle 0, PyStream.handle 1⟩
                  CaptureState.init).2 "hello").1).2.2 = "hello"
    ∧ (stop_capture
        (start_capture ⟨PyStream.handle 0, PyStream.handle 1⟩ CaptureState.init).1
        (write (start_capture ⟨PyStream.handle 0, PyStream.handle 1⟩
                  CaptureState.init).2 "hello").1).2.1.captured_output = ["hello"]
    ∧ (stop_capture
        (start_capture ⟨PyStream.handle 0, PyStream.handle 1⟩ CaptureState.init).1
        (write (start_capture ⟨PyStream.handle 0, PyStream.handle 1⟩
                  CaptureState.init).2 "hello").1).2.1.captured_output ≠ [] := by
  refine ⟨?_, ?_, ?_⟩ <;> decide

/-- C2 amended: for every active session, `stop_capture` returns the
accumulated sink content, but the sink slot keeps its content through the
`stop` call; it is emptied only by the next `start_capture`. -/
theorem claim_C2_amended (sys sys2 : SysStreams) (c : CaptureState)
    (h : c.is_capturing = true) :
    (stop_capture sys c).2.2 = String.join c.captured_output
    ∧ (stop_capture sys c).2.1.captured_output = c.captured_output
    ∧ (start_capture sys2 (stop_capture sys c).2.1).2.captured_output = [] := by
  refine ⟨?_, ?_, ?_⟩ <;> simp [stop_capture, start_capture, h]

/-- Witness for the amended C2 at a concrete active session. -/
theorem claim_C2_witness :
    (stop_capture ⟨PyStream.tee, PyStream.tee⟩
        ⟨PyStream.handle 0, PyStream.handle 1, ["hello"], true⟩).2.2 = "hello"
    ∧ (stop_capture ⟨PyStream.tee, PyStream.tee⟩
        ⟨PyStream.handle 0, PyStream.handle 1, ["hello"], true⟩).2.1.captured_output
        = ["hello"]
    ∧ (start_capture ⟨PyStream.handle 0, PyStream.handle 1⟩
        (stop_capture ⟨PyStream.tee, PyStream.tee⟩
          ⟨PyStream.handle 0, PyStream.handle 1, ["hello"], true⟩).2.1).2.captured_output
        = [] := by
  have h := claim_C2_amended ⟨PyStream.tee, PyStream.tee⟩
    ⟨PyStream.handle 0, PyStream.handle 1⟩
    ⟨PyStream.handle 0, PyStream.handle 1, ["hello"], true⟩ rfl
  exact ⟨h.1.trans (by decide), h.2.1, h.2.2⟩

/-- C3: during a session started with an empty sink, the text returned by the
following `stop_capture` is exactly the concatenation, in arrival order, of
the written chunks that are non-empty after stripping; and a chunk that is
whitespace-only (or empty) is neither buffered nor forwarded. -/
theorem claim_C3 (sys : SysStreams) (c : CaptureState) (ws : List String)
    (hcap : c.is_capturing = true) (hsink : c.captured_output = []) :
    (stop_capture sys (writeAll c ws)).2.2
      = String.join (ws.filter (fun w => pyStrip w ≠ ""))
    ∧ ∀ w, pyStrip w = "" → write c w = (c, none) := by
  constructor
  · rw [writeAll_eq ws c]
    simp [stop_capture, hcap, hsink]
  · intro w hw
    rw [write_eq]
    simp [hw]

/-- Witness for C3: `write("")`, `write("   ")`, `write("hello")` then `stop`
returns exactly `"hello"`, and `write("   ")` is a complete no-op. -/
theorem claim_C3_witness :
    (stop_capture ⟨PyStream.tee, PyStream.tee⟩
        (writeAll (start_capture ⟨PyStream.handle 0, PyStream.handle 1⟩
                     CaptureState.init).2
          ["", "   ", "hello"])).2.2 = "hello"
    ∧ write (start_capture ⟨PyStream.handle 0, PyStream.handle 1⟩
               CaptureState.init).2 "   "
        = ((start_capture ⟨PyStream.handle 0, PyStream.handle 1⟩
              CaptureState.init).2, none) := by
  have h := claim_C3 ⟨PyStream.tee, PyStream.tee⟩
    (start_capture ⟨PyStream.handle 0, PyStream.handle 1⟩ CaptureState.init).2
    ["", "   ", "hello"] rfl rfl
  exact ⟨h.1.trans (by decide), h.2 "   " (by decide)⟩

/-- C10 (implicit): `write` never consults the `is_capturing` flag — on an
inactive session whose saved target is still a real handle (as it is after a
`stop`, which never clears the saved handles), a non-whitespace chunk is
still appended to the sink and forwarded, colorized, to that handle; the
accumulated text is discarded only by the next `start_capture`'s reset. -/
theorem claim_C10 (c : CaptureState) (n : Nat) (w : String) (sys : SysStreams)
    (hcap : c.is_capturing = false)
    (hstd : c.original_stdout = PyStream.handle n)
    (hw : pyStrip w ≠ "") :
    write c w = ({ c with captured_output := c.captured_output ++ [w] },
                 some (PyStream.handle n,
                       Colors.GREEN ++ "[REALTIME] " ++ w ++ Colors.END))
    ∧ (∀ (sys2 : SysStreams) (c2 : CaptureState),
        (stop_capture sys2 c2).2.1.original_stdout = c2.original_stdout)
    ∧ (start_capture sys (write c w).1).2.captured_output = [] := by
  refine ⟨?_, ?_, ?_⟩
  · rw [write_eq]
    simp [hw, hstd]
  · intro sys2 c2
    unfold stop_capture
    split <;> rfl
  · rw [write_eq]
    simp [hw, start_capture, hcap]

/-! ## Lemmas about the formatters -/

theorem natDecAux_succ_ne_nil (fuel n : Nat) : natDecAux (fuel + 1) n ≠ [] := by
  unfold natDecAux
  split <;> simp

theorem natRepr_length_pos (n : Nat) : 1 ≤ (natRepr n).length := by
  have h : 0 < (natDecAux (n + 1) n).length :=
    List.length_pos.mpr (natDecAux_succ_ne_nil n n)
  have h2 : (String.mk ((natDecAux (n + 1) n).reverse)).length
      = ((natDecAux (n + 1) n).reverse).length := rfl
  show 1 ≤ (String.mk ((natDecAux (n + 1) n).reverse)).length
  rw [h2, List.length_reverse]
  omega

theorem formatInt2_length (i : Nat) : 2 ≤ (formatInt2 i).length := by
  have h := natRepr_length_pos i
  by_cases hlt : (natRepr i).length < 2
  · have h1 : formatInt2 i = " " ++ natRepr i := by simp [formatInt2, hlt]
    have h2 : (" " : String).length = 1 := rfl
    rw [h1, String.length_append, h2]
    omega
  · have h1 : formatInt2 i = natRepr i := by simp [formatInt2, hlt]
    rw [h1]
    omega

theorem numberLines_length (ls : List String) : ∀ i : Nat,
    (numberLines i ls).length = ls.length := by
  induction ls with
  | nil => intro i; simp [numberLines]
  | cons a as ih => intro i; simp [numberLines, ih]

theorem numberLines_getD (ls : List String) : ∀ (i j : Nat), j < ls.length →
    (numberLines i ls).getD j ""
      = Colors.BLUE ++ "[" ++ formatInt2 (i + j) ++ "] "
          ++ ls.getD j "" ++ Colors.END := by
  induction ls with
  | nil => intro i j h; simp at h
  | cons a as ih =>
      intro i j h
      cases j with
      | zero => simp [numberLines]
      | succ j =>
          have hj : j < as.length := by simpa using h
          have heq : i + 1 + j = i + (j + 1) := by omega
          have hrec := ih (i + 1) j hj
          rw [heq] at hrec
          simpa [numberLines] using hrec

theorem pySplitNlAux_ne_nil (cs : List Char) : ∀ acc, pySplitNlAux cs acc ≠ [] := by
  induction cs with
  | nil => intro acc; simp [pySplitNlAux]
  | cons c rest ih =>
      intro acc
      unfold pySplitNlAux
      split
      · simp
      · exact ih (c :: acc)

theorem pySplitNl_length_pos (s : String) : 1 ≤ (pySplitNl s).length :=
  List.length_pos.mpr (pySplitNlAux_ne_nil s.toList [])

/-- The indexed body extracted from `pre_run_print`'s output is exactly the
numbered-line loop over the split cell text. -/
theorem preRunIndexed_eq (content : String) :
    preRunIndexed content = numberLines 1 (pySplitNl (pyStrip content)) := by
  unfold preRunIndexed pre_run_print
  have hlen : ∀ (a1 a2 a3 : String) (body : List String) (b1 b2 b3 : String),
      ([a1, a2, a3] ++ body ++ [b1, b2, b3]).length - 6 = body.length := by
    intro a1 a2 a3 body b1 b2 b3
    simp
  rw [hlen]
  simp [List.drop_append_eq_append_drop, List.take_append_eq_append_take,
    numberLines_length]

/-- C8: `pre_run_print` first strips the whole cell text, splits it on
newlines, and emits one body line per piece, prefixed with its 1-based index
right-justified to at least two characters; on `"a\nb\nc"` the body is
exactly three indexed lines with indices ` 1`, ` 2`, ` 3`. -/
theorem claim_C8 (content : String) :
    (preRunIndexed content).length = (pySplitNl (pyStrip content)).length
    ∧ (∀ j : Nat, j < (pySplitNl (pyStrip content)).length →
        (preRunIndexed content).getD j ""
          = Colors.BLUE ++ "[" ++ formatInt2 (j + 1) ++ "] "
              ++ (pySplitNl (pyStrip content)).getD j "" ++ Colors.END
        ∧ 2 ≤ (formatInt2 (j + 1)).length)
    ∧ preRunIndexed "a\nb\nc"
        = [Colors.BLUE ++ "[ 1] a" ++ Colors.END,
           Colors.BLUE ++ "[ 2] b" ++ Colors.END,
           Colors.BLUE ++ "[ 3] c" ++ Colors.END] := by
  refine ⟨?_, ?_, ?_⟩
  · rw [preRunIndexed_eq, numberLines_length]
  · intro j hj
    refine ⟨?_, formatInt2_length (j + 1)⟩
    rw [preRunIndexed_eq, numberLines_getD (pySplitNl (pyStrip content)) 1 j hj,
      Nat.add_comm 1 j]
  · rw [preRunIndexed_eq]
    decide

/-- Witness for C8 on `"a\nb\nc"` at the third line. -/
theorem claim_C8_witness :
    (preRunIndexed "a\nb\nc").getD 2 ""
      = Colors.BLUE ++ "[" ++ formatInt2 (2 + 1) ++ "] "
          ++ (pySplitNl (pyStrip "a\nb\nc")).getD 2 "" ++ Colors.END
    ∧ 2 ≤ (formatInt2 (2 + 1)).length
    ∧ (preRunIndexed "a\nb\nc").getD 2 "" = Colors.BLUE ++ "[ 3] c" ++ Colors.END := by
  have h := (claim_C8 "a\nb\nc").2.1 2 (by decide)
  exact ⟨h.1, h.2, h.1.trans (by decide)⟩

/-- C7 as stated is false: the result `""` (a Python string, hence not
`None`) produces only the type-name line — no value preview line is emitted,
because the code prints the preview only when the truncated string form is
truthy after `strip()`. -/
theorem claim_C7_counterexample :
    resultLines (PyValue.pystr "")
      = [Colors.YELLOW ++ "ðŸ“Š Result type: str" ++ Colors.END]
    ∧ (resultLines (PyValue.pystr "")).length = 1 := by
  constructor <;> decide

/-- C7 amended: for result `None` the formatter emits exactly the
"no return value" line and never a type-name line; for a present result it
emits the type-name line and then the value preview line — except that the
preview line is omitted when the (truncated) string form is empty or
whitespace-only.  The preview is the string form truncated to 200 characters
with a trailing `"..."` exactly when the string form exceeds 200 characters;
so result `42` yields the `int` type line and a `42` preview, and a
250-character string yields a 200-character preview plus `"..."`. -/
theorem claim_C7_amended (r : PyValue) (t : ℚ) (content : String)
    (h : r ≠ PyValue.pynone) :
    resultLines PyValue.pynone
      = [Colors.YELLOW ++ "ðŸ“Š No return value" ++ Colors.END]
    ∧ (pyStrip (pyTrunc r.str) ≠ "" →
        resultLines r
          = [Colors.YELLOW ++ "ðŸ“Š Result type: " ++ r.typeName ++ Colors.END,
             Colors.YELLOW ++ "ðŸ“‹ Result preview: "
               ++ pyTrunc r.str ++ Colors.END])
    ∧ (pyStrip (pyTrunc r.str) = "" →
        resultLines r
          = [Colors.YELLOW ++ "ðŸ“Š Result type: " ++ r.typeName ++ Colors.END])
    ∧ (200 < r.str.length → pyTrunc r.str = r.str.take 200 ++ "...")
    ∧ (r.str.length ≤ 200 → pyTrunc r.str = r.str)
    ∧ resultLines (PyValue.pyint 42)
        = [Colors.YELLOW ++ "ðŸ“Š Result type: int" ++ Colors.END,
           Colors.YELLOW ++ "ðŸ“‹ Result preview: 42" ++ Colors.END]
    ∧ resultLines (PyValue.pystr (String.mk (List.replicate 250 'a')))
        = [Colors.YELLOW ++ "ðŸ“Š Result type: str" ++ Colors.END,
           Colors.YELLOW ++ "ðŸ“‹ Result preview: "
             ++ (String.mk (List.replicate 200 'a') ++ "...") ++ Colors.END]
    ∧ (∀ l ∈ resultLines r, l ∈ post_run_print r t content) := by
  refine ⟨by decide, ?_, ?_, ?_, ?_, by decide, by decide, ?_⟩
  · intro hp
    simp [resultLines, h, hp]
  · intro hp
    simp [resultLines, h, hp]
  · intro hlen
    simp [pyTrunc, hlen]
  · intro hlen
    have : ¬ r.str.length > 200 := by omega
    simp [pyTrunc, this]
  · intro l hl
    simp only [post_run_print, List.mem_append, List.mem_cons]
    exact Or.inl (Or.inr hl)

/-- Witness for the amended C7 at results `42` and a 250-character string. -/
theorem claim_C7_witness :
    resultLines (PyValue.pyint 42)
      = [Colors.YELLOW ++ "ðŸ“Š Result type: int" ++ Colors.END,
         Colors.YELLOW ++ "ðŸ“‹ Result preview: 42" ++ Colors.END]
    ∧ pyTrunc (PyValue.pystr (String.mk (List.replicate 250 'a'))).str
      = (String.mk (List.replicate 250 'a')).take 200 ++ "..." := by
  have h1 := claim_C7_amended (PyValue.pyint 42) 1 "x" (by decide)
  have h2 := claim_C7_amended (PyValue.pystr (String.mk (List.replicate 250 'a')))
    1 "x" (by decide)
  exact ⟨h1.2.2.2.2.2.1, h2.2.2.2.1 (by decide)⟩

/-- C9: the three formatters are total functions of their inputs in this
embedding (the source has no fallible operation on their paths), so none of
them can raise: for every result value (including `None`), every duration and
every cell text (including empty or whitespace-only), each produces its
output; in particular the post-run line count is still produced on empty cell
text (the split of a stripped empty text has exactly one piece). -/
theorem claim_C9 (r : PyValue) (t : ℚ) (timestamp text content : String) :
    pre_run_print content ≠ []
    ∧ (realtime_print timestamp text = []
        ∨ realtime_print timestamp text
            = [Colors.GREEN ++ "[" ++ timestamp ++ "] "
                 ++ pyStrip text ++ Colors.END])
    ∧ (Colors.YELLOW ++ "ðŸ“ Lines executed: "
         ++ natRepr (pySplitNl (pyStrip content)).length ++ Colors.END)
        ∈ post_run_print r t content
    ∧ 1 ≤ (pySplitNl (pyStrip content)).length
    ∧ (Colors.YELLOW ++ "ðŸ“ Lines executed: " ++ natRepr 1 ++ Colors.END)
        ∈ post_run_print r t "" := by
  refine ⟨?_, ?_, ?_, pySplitNl_length_pos _, ?_⟩
  · simp [pre_run_print]
  · unfold realtime_print
    split
    · right; rfl
    · left; rfl
  · simp [post_run_print]
  · have hone : (pySplitNl (pyStrip "")).length = 1 := by decide
    have := (fun h => h) (by simp [post_run_print] :
      (Colors.YELLOW ++ "ðŸ“ Lines executed: "
         ++ natRepr (pySplitNl (pyStrip "")).length ++ Colors.END)
        ∈ post_run_print r t "")
    rwa [hone] at this

/-- C1: `post_execute` reads the start time and the last result with
`getattr` on the `user_ns` dict, which never sees the dict's keys: whatever
`pre_execute` stored by key assignment, the reported elapsed time collapses
to the difference of `post_execute`'s own two `time.time()` calls (≈ 0) and
the reported result is always `None`, while the key-lookup semantics the
claim states would give the real elapsed time and the real last result.
Concretely: start recorded at 0 by `pre_execute`, last result `42`,
`post_execute` at time 5 reports elapsed 0 and result `None`; key lookup
would report elapsed 5 and result `42`. -/
theorem claim_C1_code_eval :
    (∀ (ip : IpState) (tDefault tNow : ℚ),
        post_execute_elapsed ip tDefault tNow = tNow - tDefault
        ∧ post_execute_result ip = PyValue.pynone)
    ∧ post_execute_elapsed
        ((pre_execute true ⟨PyStream.handle 0, PyStream.handle 1⟩
            CaptureState.init
            ⟨[("_", NsVal.obj (PyValue.pyint 42))], some "1 + 41"⟩ 0).2.2.1) 5 5 = 0
    ∧ spec_elapsed
        ((pre_execute true ⟨PyStream.handle 0, PyStream.handle 1⟩
            CaptureState.init
            ⟨[("_", NsVal.obj (PyValue.pyint 42))], some "1 + 41"⟩ 0).2.2.1) 5
        = some 5
    ∧ post_execute_result
        ((pre_execute true ⟨PyStream.handle 0, PyStream.handle 1⟩
            CaptureState.init
            ⟨[("_", NsVal.obj (PyValue.pyint 42))], some "1 + 41"⟩ 0).2.2.1)
        = PyValue.pynone
    ∧ spec_result
        ((pre_execute true ⟨PyStream.handle 0, PyStream.handle 1⟩
            CaptureState.init
            ⟨[("_", NsVal.obj (PyValue.pyint 42))], some "1 + 41"⟩ 0).2.2.1)
        = PyValue.pyint 42 := by
  refine ⟨fun ip tDefault tNow => ⟨rfl, rfl⟩, ?_, ?_, rfl, ?_⟩
  · show (5 : ℚ) - 5 = 0
    norm_num
  · show spec_elapsed
        ⟨dictSet [("_", NsVal.obj (PyValue.pyint 42))] "_cell_start_time"
           (NsVal.time 0), some "1 + 41"⟩ 5 = some 5
    simp [spec_elapsed, dictSet, dictGet?]
  · rfl

/-- Witness for C10: a write on a stopped session with sink `["old"]` and
saved handle 0 still buffers and forwards, and the next start clears it. -/
theorem claim_C10_witness :
    write ⟨PyStream.handle 0, PyStream.handle 1, ["old"], false⟩ "x"
      = (⟨PyStream.handle 0, PyStream.handle 1, ["old", "x"], false⟩,
         some (PyStream.handle 0, Colors.GREEN ++ "[REALTIME] x" ++ Colors.END))
    ∧ (start_capture ⟨PyStream.handle 0, PyStream.handle 1⟩
        (write ⟨PyStream.handle 0, PyStream.handle 1, ["old"], false⟩ "x").1).2.captured_output
        = [] := by
  have h := claim_C10 ⟨PyStream.handle 0, PyStream.handle 1, ["old"], false⟩ 0 "x"
    ⟨PyStream.handle 0, PyStream.handle 1⟩ rfl rfl (by decide)
  exact ⟨h.1.trans (by decide), h.2.2⟩

end JupyterPrinter
